import Mathlib

/-!
Verification development for the GameHub service: a shallow embedding of the
upstream RAWG client (`rawg_client.go`), the response-normalization layer, and
the request middleware pipeline (`main.go`), together with theorems settling
the specification claims about them.

Network effects are modelled by an `UpstreamOutcome` oracle parameter: each
fetch function takes the outcome the upstream would produce and records in its
result whether the code path reached the point of issuing the network call.
Go `string` values are modelled by Lean `String`; where Go semantics is
byte-based (`len`, `url.QueryEscape`) the embedding works on the UTF-8 bytes.
-/

namespace GameHub

/-- Models Go `strings.HasPrefix s pre`. -/
def strStartsWith (s pre : String) : Bool :=
  pre.data.isPrefixOf s.data

/-- Models Go `strings.ToLower` (ASCII case mapping, which covers every store
name in the fixed storefront table). -/
def goToLower (s : String) : String :=
  String.mk (s.data.map Char.toLower)

/-- The UTF-8 encoding of a single code point, as a list of byte values. -/
def utf8EncodeCp (n : Nat) : List Nat :=
  if n < 128 then [n]
  else if n < 2048 then [192 + n / 64, 128 + n % 64]
  else if n < 65536 then [224 + n / 4096, 128 + (n / 64) % 64, 128 + n % 64]
  else [240 + n / 262144, 128 + (n / 4096) % 64, 128 + (n / 64) % 64, 128 + n % 64]

/-- The UTF-8 bytes of a string; models how Go views a `string`. -/
def utf8Bytes (s : String) : List Nat :=
  s.data.foldr (fun c acc => utf8EncodeCp c.toNat ++ acc) []

/-- Models Go `len` on a string (byte length). -/
def goStrLen (s : String) : Nat :=
  (utf8Bytes s).length

/-- Upper-case hexadecimal digit for a value below 16. -/
def hexDigitChar (n : Nat) : Char :=
  if n < 10 then Char.ofNat (48 + n) else Char.ofNat (55 + n)

/-- Bytes left unescaped by Go `url.QueryEscape`: ASCII letters, digits,
and `-`, `.`, `_`, `~`. -/
def isUnreservedByte (b : Nat) : Bool :=
  (65 ≤ b && b ≤ 90) || (97 ≤ b && b ≤ 122) || (48 ≤ b && b ≤ 57) ||
    b == 45 || b == 46 || b == 95 || b == 126

/-- Escaping of one byte under Go `url.QueryEscape`: space becomes `+`,
unreserved bytes pass through, everything else becomes `%XX`. -/
def queryEscapeByte (b : Nat) : List Char :=
  if b == 32 then ['+']
  else if isUnreservedByte b then [Char.ofNat b]
  else ['%', hexDigitChar (b / 16), hexDigitChar (b % 16)]

/-- Models Go `url.QueryEscape`. -/
def queryEscape (s : String) : String :=
  String.mk ((utf8Bytes s).foldr (fun b acc => queryEscapeByte b ++ acc) [])

/-- Naive substring test on character lists (used to state what a built URL
does or does not contain). -/
def listHasSub (pat : List Char) : List Char → Bool
  | [] => pat.isEmpty
  | c :: tl => pat.isPrefixOf (c :: tl) || listHasSub pat tl

/-! Section: Data model (structs of `rawg_client.go` / `main.go`) -/

structure RAWGStoreDetail where
  id : Int
  name : String
  url : String
  image : String
deriving DecidableEq

structure RAWGStore where
  store : RAWGStoreDetail
deriving DecidableEq

structure Genre where
  id : Int
  name : String
deriving DecidableEq

structure PlatformDetail where
  id : Int
  name : String
deriving DecidableEq

structure Platform where
  platform : PlatformDetail
deriving DecidableEq

structure RAWGGame where
  id : Int
  name : String
  released : String
  backgroundImage : String
  rating : Float
  ratingTop : Int
  added : Int
  metacritic : Int
  playtime : Int
  updated : String
  reviewsCount : Int
  description : String
  genres : List Genre
  platforms : List Platform
  stores : List RAWGStore

structure RAWGResponse where
  count : Int
  next : String
  previous : String
  results : List RAWGGame

structure Store where
  id : Int
  name : String
  url : String
  image : String
deriving DecidableEq

structure Game where
  id : String
  title : String
  description : String
  backgroundImage : String
  genres : List String
  rating : Float
  ratingTop : Int
  releaseDate : String
  added : Int
  metacritic : Int
  playtime : Int
  updated : String
  reviews : Int
  platforms : List String
  stores : List Store

/-! Section: Store-URL synthesis (`generateStoreURL`, `getStores`) -/

/-- Embedding of `generateStoreURL` from `rawg_client.go`: switch on the
lower-cased store name over six known storefronts, defaulting to a Google
search query; the game name is `url.QueryEscape`d. -/
def generateStoreURL (storeName gameName : String) : String :=
  let encodedName := queryEscape gameName
  let l := goToLower storeName
  if l = "steam" then "https://store.steampowered.com/search/?term=" ++ encodedName
  else if l = "playstation store" then "https://store.playstation.com/search/" ++ encodedName
  else if l = "xbox store" then "https://www.xbox.com/games/search?q=" ++ encodedName
  else if l = "nintendo" then "https://www.nintendo.com/search/?q=" ++ encodedName ++ "&p=1&cat=gme"
  else if l = "gog" then "https://www.gog.com/games?query=" ++ encodedName
  else if l = "epic games" then "https://store.epicgames.com/browse?q=" ++ encodedName
  else "https://www.google.com/search?q=buy+" ++ encodedName ++ "+game"

/-- Embedding of `getStores` from `rawg_client.go`: the loop that appends one
normalized `Store` per provider store entry, with a synthesized URL. -/
def getStores : List RAWGStore → String → List Store
  | [], _ => []
  | st :: rest, gameName =>
      { id := st.store.id
        name := st.store.name
        url := generateStoreURL st.store.name gameName
        image := st.store.image } :: getStores rest gameName

/-- The spec's fixed table of six known storefronts: lower-cased display name,
URL template prefix, URL template suffix (the escaped title goes between). -/
def knownStoreTable : List (String × String × String) :=
  [("steam", "https://store.steampowered.com/search/?term=", ""),
   ("playstation store", "https://store.playstation.com/search/", ""),
   ("xbox store", "https://www.xbox.com/games/search?q=", ""),
   ("nintendo", "https://www.nintendo.com/search/?q=", "&p=1&cat=gme"),
   ("gog", "https://www.gog.com/games?query=", ""),
   ("epic games", "https://store.epicgames.com/browse?q=", "")]

/-- The store-URL synthesis as the spec words it: a case-insensitive lookup of the
store display name in the fixed six-entry storefront table, substituting the
URL-escaped game title into the matched template; unmatched names fall through
to the generic search-engine query template. -/
def storeURLSpec (storeName gameName : String) : String :=
  let e := queryEscape gameName
  match knownStoreTable.find? (fun kv => goToLower storeName == kv.1) with
  | some kv => kv.2.1 ++ e ++ kv.2.2
  | none => "https://www.google.com/search?q=buy+" ++ e ++ "+game"

/-! Section: Upstream client (`validateURL`, `fetchGames`, `fetchGameByID`) -/

/-- Base URL constant `baseAPIURL` of `rawg_client.go`. -/
def baseAPIURL : String := "https://api.rawg.io/api"

/-- Characters kept by the `strings.Map` filter in `validateURL`:
the set `[a-zA-Z0-9/_?=&-]`. -/
def isValidEndpointChar (c : Char) : Bool :=
  (97 ≤ c.toNat && c.toNat ≤ 122) || (65 ≤ c.toNat && c.toNat ≤ 90) ||
    (48 ≤ c.toNat && c.toNat ≤ 57) ||
    c == '/' || c == '-' || c == '_' || c == '?' || c == '=' || c == '&'

/-- Embedding of `validateURL` from `rawg_client.go`: the endpoint must start
with `/`, and dropping every character outside the allowed set (the
`strings.Map` returning `-1` on disallowed runes) must leave it unchanged. -/
def validateURL (endpoint : String) : Except String Unit :=
  if strStartsWith endpoint "/" = false then .error "endpoint must start with /"
  else if String.mk (endpoint.data.filter isValidEndpointChar) = endpoint then .ok ()
  else .error "invalid characters in endpoint"

/-- Error taxonomy of the upstream client, one constructor per distinct
`fmt.Errorf` site. -/
inductive FetchErr where
  /-- Error `"invalid endpoint: %w"` wrapping a `validateURL` failure in `fetchGames`. -/
  | invalidEndpoint (msg : String)
  /-- Error `"game ID cannot be empty"` in `fetchGameByID`. -/
  | emptyGameID
  /-- Error `"invalid game ID: %w"` wrapping a `validateURL` failure in `fetchGameByID`. -/
  | invalidGameID (msg : String)
  /-- Error `"RAWG_API_KEY not configured"`. -/
  | missingCredential
  /-- Error from a `makeRequest` failure (network error or timeout). -/
  | upstreamUnavailable
  /-- Error `"error reading response: %w"` from `io.ReadAll`. -/
  | readError
  /-- Error `"error parsing response: %w"` from `json.Unmarshal`. -/
  | parseError
deriving DecidableEq

/-- Oracle for what the upstream HTTP exchange would produce, had the code
reached the network call: request failure, body-read failure, undecodable
body, or a decoded value. -/
inductive UpstreamOutcome (α : Type) where
  | netFail
  | readFail
  | badJSON
  | ok (body : α)

/-- Result of a fetch function, instrumented with whether the code path
reached the network call and with the outbound URL it built. -/
structure FetchResult (α : Type) where
  result : Except FetchErr α
  networkCalled : Bool
  requestURL : Option String

/-- Embedding of `getGenres`. -/
def getGenres (genres : List Genre) : List String :=
  genres.map Genre.name

/-- Embedding of `getPlatforms`. -/
def getPlatforms (platforms : List Platform) : List String :=
  platforms.map (fun p => p.platform.name)

/-- The `Game` construction block shared verbatim by `fetchGames` and
`fetchGameByID` in `rawg_client.go` (field-by-field renaming plus
`fmt.Sprintf("%d", ID)` and the genre/platform/store projections). -/
def normalizeGame (g : RAWGGame) : Game :=
  { id := toString g.id
    title := g.name
    description := g.description
    backgroundImage := g.backgroundImage
    genres := getGenres g.genres
    rating := g.rating
    ratingTop := g.ratingTop
    releaseDate := g.released
    added := g.added
    metacritic := g.metacritic
    playtime := g.playtime
    updated := g.updated
    reviews := g.reviewsCount
    platforms := getPlatforms g.platforms
    stores := getStores g.stores g.name }

/-- Embedding of `fetchGames` from `rawg_client.go` (the named source file;
the older revision in the repository differs in URL construction). Validation
and the credential check run before any network activity; the outbound URL
appends `key=<credential>&page_size=20`, joined with `&` when the endpoint
already contains `?`, else with `?`. -/
def fetchGames (apiKey : String) (upstream : UpstreamOutcome RAWGResponse)
    (endpoint : String) : FetchResult (List Game) :=
  match validateURL endpoint with
  | .error msg => { result := .error (.invalidEndpoint msg), networkCalled := false, requestURL := none }
  | .ok _ =>
    if apiKey = "" then
      { result := .error .missingCredential, networkCalled := false, requestURL := none }
    else
      let urlStr := baseAPIURL ++ endpoint
      let urlStr :=
        if endpoint.data.contains '?' then urlStr ++ "&key=" ++ apiKey ++ "&page_size=20"
        else urlStr ++ "?key=" ++ apiKey ++ "&page_size=20"
      match upstream with
      | .netFail => { result := .error .upstreamUnavailable, networkCalled := true, requestURL := some urlStr }
      | .readFail => { result := .error .readError, networkCalled := true, requestURL := some urlStr }
      | .badJSON => { result := .error .parseError, networkCalled := true, requestURL := some urlStr }
      | .ok resp => { result := .ok (resp.results.map normalizeGame), networkCalled := true, requestURL := some urlStr }

/-- Embedding of `fetchGameByID` from `rawg_client.go`. Note the success path:
on any decoded body it returns `some (normalizeGame g)` — there is no branch
producing `none` together with a non-error result. JSON decoding gives `0` for
a zero or absent `id` field, which is modelled by a `RAWGGame` whose `id`
is `0`. -/
def fetchGameByID (apiKey : String) (upstream : UpstreamOutcome RAWGGame)
    (id : String) : FetchResult (Option Game) :=
  if id = "" then
    { result := .error .emptyGameID, networkCalled := false, requestURL := none }
  else
    let endpoint := "/games/" ++ id
    match validateURL endpoint with
    | .error msg => { result := .error (.invalidGameID msg), networkCalled := false, requestURL := none }
    | .ok _ =>
      if apiKey = "" then
        { result := .error .missingCredential, networkCalled := false, requestURL := none }
      else
        let urlStr := baseAPIURL ++ endpoint ++ "?key=" ++ apiKey
        match upstream with
        | .netFail => { result := .error .upstreamUnavailable, networkCalled := true, requestURL := some urlStr }
        | .readFail => { result := .error .readError, networkCalled := true, requestURL := some urlStr }
        | .badJSON => { result := .error .parseError, networkCalled := true, requestURL := some urlStr }
        | .ok g => { result := .ok (some (normalizeGame g)), networkCalled := true, requestURL := some urlStr }

/-- Outbound URL construction of the older `fetchGames` revision
(`src/unnamed/part_001`): three named collection endpoints and paths ending in
`?` get `?`/direct joining, every other path is joined with `&`; this revision
does append the fixed store-filter parameter `stores=1,...,11`. The
out-of-range index access on an empty endpoint is modelled with `getLast?`. -/
def fetchGamesURL_v0 (apiKey endpoint : String) : String :=
  let baseURL := "https://api.rawg.io/api" ++ endpoint
  let tail := "key=" ++ apiKey ++ "&page_size=20&stores=1,2,3,4,5,6,7,8,9,10,11"
  if endpoint = "/games" ∨ endpoint = "/games/latest" ∨ endpoint = "/games/popular" then
    baseURL ++ "?" ++ tail
  else if endpoint.data.getLast? = some '?' then
    baseURL ++ tail
  else
    baseURL ++ "&" ++ tail

/-- A decoded upstream object whose identifier is zero (the decode result of
a body with identifier `0` or with no identifier field at all). -/
def zeroIDGame : RAWGGame :=
  { id := 0, name := "", released := "", backgroundImage := "", rating := 0.0,
    ratingTop := 0, added := 0, metacritic := 0, playtime := 0, updated := "",
    reviewsCount := 0, description := "", genres := [], platforms := [], stores := [] }

/-! Section: Route handlers (`main.go`) -/

/-- A handler response for the single-game endpoint: HTTP status, the
`gin.H` error body when present, and the serialized game when present. -/
structure GameResponse where
  status : Nat
  errorMsg : Option String
  game : Option Game

/-- Embedding of `getGameByID` from `main.go`: 500 on a fetch error, 404 when
the fetch returned `nil` with no error, else 200 with the game. -/
def getGameByID (apiKey : String) (upstream : UpstreamOutcome RAWGGame)
    (id : String) : GameResponse :=
  match (fetchGameByID apiKey upstream id).result with
  | .error _ => { status := 500, errorMsg := some "Failed to fetch game", game := none }
  | .ok none => { status := 404, errorMsg := some "Game not found", game := none }
  | .ok (some g) => { status := 200, errorMsg := none, game := some g }

/-- A handler response for collection endpoints. -/
structure ListResponse where
  status : Nat
  errorMsg : Option String
  games : Option (List Game)

/-- Embedding of `handleResponse` from `main.go`. -/
def handleResponse (res : Except FetchErr (List Game)) : ListResponse :=
  match res with
  | .error _ => { status := 500, errorMsg := some "Internal server error", games := none }
  | .ok gs => { status := 200, errorMsg := none, games := some gs }

/-- Outcome of the `searchGames` handler, instrumented with the endpoint it
passed to the upstream client (`none` when no upstream call was made). -/
structure SearchOutcome where
  status : Nat
  errorMsg : Option String
  games : Option (List Game)
  fetchedEndpoint : Option String

/-- Embedding of `searchGames` from `main.go`. gin's `c.Query("q")` yields the
empty string when the parameter is absent, so an absent and an empty `q`
coincide in the model. -/
def searchGames (apiKey : String) (upstream : UpstreamOutcome RAWGResponse)
    (q : String) : SearchOutcome :=
  if q = "" then
    { status := 400, errorMsg := some "Search query is required", games := none, fetchedEndpoint := none }
  else
    let ep := "/games?search=" ++ q
    let h := handleResponse (fetchGames apiKey upstream ep).result
    { status := h.status, errorMsg := h.errorMsg, games := h.games, fetchedEndpoint := some ep }

/-! Section: Request middleware (`rateLimiter`, `validateInput` of `main.go`) -/

/-- The rate limiter's shared state: the Go `map[string]int64` from client IP
to the Unix-second timestamp of its last admitted request, as an association
list with unique keys. -/
abbrev LimiterMap := List (String × Int)

/-- Lookup of a client's recorded timestamp (`limiter[ip]`). -/
def lookupIP (m : LimiterMap) (ip : String) : Option Int :=
  (m.find? (fun e => e.1 == ip)).map Prod.snd

/-- The purge sweep at the top of the limiter closure: delete every entry
whose timestamp is more than 60 seconds old. -/
def purgeOld (now : Int) (m : LimiterMap) : LimiterMap :=
  m.filter (fun e => decide (now - e.2 ≤ 60))

/-- Map update `limiter[ip] = t`. -/
def setIP (m : LimiterMap) (ip : String) (t : Int) : LimiterMap :=
  m.filter (fun e => !(e.1 == ip)) ++ [(ip, t)]

/-- Result of one pass through the rate limiter: the terminal response when
the request is aborted (`c.AbortWithStatusJSON(429, ...)`), `none` when the
request proceeds to `c.Next()`, plus the post-state of the shared map. -/
structure RateStep where
  response : Option (Nat × String)
  newMap : LimiterMap

/-- Embedding of the `rateLimiter` middleware body from `main.go` for one
request: under the lock, purge entries older than 60 seconds, reject with 429
if the client has an entry less than 1 second old, otherwise record `now` for
the client and pass the request on. -/
def rateLimiterStep (m : LimiterMap) (ip : String) (now : Int) : RateStep :=
  let m1 := purgeOld now m
  match m1.find? (fun e => e.1 == ip) with
  | some e =>
    if now - e.2 < 1 then { response := some (429, "Too many requests"), newMap := m1 }
    else { response := none, newMap := setIP m1 ip now }
  | none => { response := none, newMap := setIP m1 ip now }

/-- Well-formedness of the limiter state as the image of a Go map: keys are
unique. -/
def WFMap (m : LimiterMap) : Prop :=
  (m.map Prod.fst).Nodup

instance : DecidablePred WFMap := fun m =>
  inferInstanceAs (Decidable ((m.map Prod.fst).Nodup))

/-- The characters `strings.ContainsAny` screens query parameter names
against: `<`, `>`, `\x7b`, `\x7d`, `[`, `]`, `\`. -/
def forbiddenParamChars : List Char :=
  ['<', '>', Char.ofNat 123, Char.ofNat 125, '[', ']', '\\']

/-- Whether a parameter name contains one of the forbidden characters
(`strings.ContainsAny(param, "<>...[]\\")`). -/
def containsForbidden (s : String) : Bool :=
  s.data.any (fun c => forbiddenParamChars.contains c)

/-- The part of an inbound request inspected by the `validateInput`
middleware: method, Content-Type header, raw query string, and the decoded
query parameter names of `c.Request.URL.Query()`. -/
structure HttpRequest where
  method : String
  contentType : String
  rawQuery : String
  queryParamNames : List String

/-- Embedding of the `validateInput` middleware body from `main.go`: the
terminal response it aborts with, or `none` when the request is passed to
`c.Next()`. Checks run in source order: raw-query byte length over 1024,
then non-JSON POST Content-Type, then forbidden characters in any query
parameter name. -/
def validateInput (req : HttpRequest) : Option (Nat × String) :=
  if 1024 < goStrLen req.rawQuery then some (400, "Query string too long")
  else if req.method = "POST" ∧ req.contentType ≠ "application/json" then
    some (415, "Unsupported Media Type")
  else if req.queryParamNames.any containsForbidden then
    some (400, "Invalid characters in parameters")
  else none

/-! Section: Helper lemmas on strings -/

theorem str_data_append (a b : String) : (a ++ b).data = a.data ++ b.data := rfl

theorem str_length_append (a b : String) : (a ++ b).length = a.length + b.length := by
  cases a with
  | mk da =>
    cases b with
    | mk db => exact List.length_append da db

theorem append_length_pos (a b : String) (h : 0 < a.length) : 0 < (a ++ b).length := by
  rw [str_length_append]; omega

theorem str_append_empty (s : String) : s ++ "" = s := by
  cases s with
  | mk d => exact congrArg String.mk (List.append_nil d)

/-- Every branch of `generateStoreURL` yields a URL with at least one
character. -/
theorem generateStoreURL_length_pos (n g : String) : 0 < (generateStoreURL n g).length := by
  simp only [generateStoreURL]
  split_ifs <;>
    first
      | exact append_length_pos _ _ (by decide)
      | exact append_length_pos _ _ (append_length_pos _ _ (by decide))

theorem generateStoreURL_ne_empty (n g : String) : generateStoreURL n g ≠ "" := by
  intro h
  have hp := generateStoreURL_length_pos n g
  rw [h] at hp
  simp [String.length] at hp

/-! Section: Claims about the store-URL synthesis -/

/-- Claim C2 (amended): for every provider store entry, the normalized
`StoreLink` URL is synthesized from the store name and game title — the
provider-supplied URL is ignored even when non-empty — and the resulting URL
is always non-empty. -/
theorem getStores_always_synthesizes (stores : List RAWGStore) (gameName : String) :
    getStores stores gameName =
      stores.map (fun st =>
        { id := st.store.id
          name := st.store.name
          url := generateStoreURL st.store.name gameName
          image := st.store.image }) ∧
    ∀ link ∈ getStores stores gameName, link.url ≠ "" := by
  constructor
  · induction stores with
    | nil => rfl
    | cons a tl ih => simp only [getStores, List.map_cons, ih]
  · intro link hmem
    induction stores with
    | nil => simp [getStores] at hmem
    | cons a tl ih =>
      simp only [getStores, List.mem_cons] at hmem
      rcases hmem with h | h
      · rw [h]
        exact generateStoreURL_ne_empty a.store.name gameName
      · exact ih h

/-- Witness for the amended Claim C2 at a concrete store entry. -/
theorem getStores_always_synthesizes_witness :
    ({ id := 1, name := "Steam",
       url := "https://store.steampowered.com/search/?term=Portal+2",
       image := "img" } : Store).url ≠ "" :=
  (getStores_always_synthesizes
      [{ store := { id := 1, name := "Steam",
                    url := "https://store.steampowered.com/app/620", image := "img" } }]
      "Portal 2").2 _ (by decide)

/-- Counterexample to Claim C2 as stated: a provider store entry with a
non-empty provider URL is normalized to the synthesized Steam search URL,
not to the provider URL. -/
theorem getStores_ignores_provider_url_cex :
    (getStores
        [{ store := { id := 1, name := "Steam",
                      url := "https://store.steampowered.com/app/620", image := "img" } }]
        "Portal 2").map Store.url
      = ["https://store.steampowered.com/search/?term=Portal+2"] ∧
    "https://store.steampowered.com/search/?term=Portal+2"
      ≠ "https://store.steampowered.com/app/620" ∧
    "https://store.steampowered.com/app/620" ≠ "" :=
  ⟨rfl, by decide, by decide⟩

/-- Claim C3: store-URL synthesis is exactly a case-insensitive lookup of the
store name in the fixed table of six known storefronts, substituting the
URL-escaped title into the matched template, with the generic search-engine
template for every other store name. -/
theorem generateStoreURL_matches_spec_table (storeName gameName : String) :
    generateStoreURL storeName gameName = storeURLSpec storeName gameName ∧
    knownStoreTable.length = 6 := by
  refine ⟨?_, rfl⟩
  by_cases h1 : goToLower storeName = "steam"
  · simp [generateStoreURL, storeURLSpec, knownStoreTable, List.find?, beq_iff_eq, h1,
      str_append_empty]
  · by_cases h2 : goToLower storeName = "playstation store"
    · simp [generateStoreURL, storeURLSpec, knownStoreTable, List.find?, beq_iff_eq, h1, h2,
        str_append_empty]
    · by_cases h3 : goToLower storeName = "xbox store"
      · simp [generateStoreURL, storeURLSpec, knownStoreTable, List.find?, beq_iff_eq, h1, h2,
          h3, str_append_empty]
      · by_cases h4 : goToLower storeName = "nintendo"
        · simp [generateStoreURL, storeURLSpec, knownStoreTable, List.find?, beq_iff_eq, h1,
            h2, h3, h4, str_append_empty]
        · by_cases h5 : goToLower storeName = "gog"
          · simp [generateStoreURL, storeURLSpec, knownStoreTable, List.find?, beq_iff_eq, h1,
              h2, h3, h4, h5, str_append_empty]
          · by_cases h6 : goToLower storeName = "epic games"
            · simp [generateStoreURL, storeURLSpec, knownStoreTable, List.find?, beq_iff_eq,
                h1, h2, h3, h4, h5, h6, str_append_empty]
            · have e1 : (goToLower storeName == "steam") = false :=
                beq_eq_false_iff_ne.mpr h1
              have e2 : (goToLower storeName == "playstation store") = false :=
                beq_eq_false_iff_ne.mpr h2
              have e3 : (goToLower storeName == "xbox store") = false :=
                beq_eq_false_iff_ne.mpr h3
              have e4 : (goToLower storeName == "nintendo") = false :=
                beq_eq_false_iff_ne.mpr h4
              have e5 : (goToLower storeName == "gog") = false :=
                beq_eq_false_iff_ne.mpr h5
              have e6 : (goToLower storeName == "epic games") = false :=
                beq_eq_false_iff_ne.mpr h6
              simp [generateStoreURL, storeURLSpec, knownStoreTable, List.find?,
                h1, h2, h3, h4, h5, h6, e1, e2, e3, e4, e5, e6]

/-! Section: Claims about the upstream client -/

/-- Claim C5: an endpoint that does not start with `/` or contains a character
outside `[a-zA-Z0-9/_?=&-]` makes `fetchGames` fail with the invalid-endpoint
error before any network I/O; an endpoint starting with `/` made of allowed
characters only passes validation. -/
theorem fetchGames_endpoint_validation (endpoint apiKey : String)
    (u : UpstreamOutcome RAWGResponse) :
    ((strStartsWith endpoint "/" = false ∨ ∃ c ∈ endpoint.data, isValidEndpointChar c = false) →
      (∃ msg, (fetchGames apiKey u endpoint).result = .error (.invalidEndpoint msg)) ∧
        (fetchGames apiKey u endpoint).networkCalled = false) ∧
    (strStartsWith endpoint "/" = true →
      (∀ c ∈ endpoint.data, isValidEndpointChar c = true) →
      validateURL endpoint = .ok ()) := by
  constructor
  · intro h
    have hv : ∃ msg, validateURL endpoint = .error msg := by
      rcases h with hs | ⟨c, hc, hbad⟩
      · exact ⟨"endpoint must start with /", by simp [validateURL, hs]⟩
      · by_cases hs : strStartsWith endpoint "/" = false
        · exact ⟨"endpoint must start with /", by simp [validateURL, hs]⟩
        · refine ⟨"invalid characters in endpoint", ?_⟩
          have hne : String.mk (endpoint.data.filter isValidEndpointChar) ≠ endpoint := by
            intro he
            have hdata : endpoint.data.filter isValidEndpointChar = endpoint.data :=
              congrArg String.data he
            have := List.filter_eq_self.mp hdata c hc
            rw [hbad] at this
            exact Bool.false_ne_true this
          simp [validateURL, hs, hne]
    obtain ⟨msg, hmsg⟩ := hv
    exact ⟨⟨msg, by simp [fetchGames, hmsg]⟩, by simp [fetchGames, hmsg]⟩
  · intro hs hall
    have hfil : endpoint.data.filter isValidEndpointChar = endpoint.data :=
      List.filter_eq_self.mpr hall
    have hmk : String.mk endpoint.data = endpoint := rfl
    simp [validateURL, hs, hfil, hmk]

/-- Witness for Claim C5 at the endpoint `/games;DROP` (disallowed `;`). -/
theorem fetchGames_endpoint_validation_witness :
    (∃ msg, (fetchGames "KEY" .netFail "/games;DROP").result = .error (.invalidEndpoint msg)) ∧
    (fetchGames "KEY" .netFail "/games;DROP").networkCalled = false :=
  (fetchGames_endpoint_validation "/games;DROP" "KEY" .netFail).1 (Or.inr (by decide))

/-- Claim C6: with an empty API credential, both fetch functions fail with the
missing-credential error and never reach the network call, for any valid
endpoint or id. -/
theorem fetch_missing_credential (endpoint id : String)
    (u1 : UpstreamOutcome RAWGResponse) (u2 : UpstreamOutcome RAWGGame)
    (h1 : validateURL endpoint = .ok ())
    (h2 : id ≠ "") (h3 : validateURL ("/games/" ++ id) = .ok ()) :
    ((fetchGames "" u1 endpoint).result = .error .missingCredential ∧
      (fetchGames "" u1 endpoint).networkCalled = false) ∧
    ((fetchGameByID "" u2 id).result = .error .missingCredential ∧
      (fetchGameByID "" u2 id).networkCalled = false) := by
  refine ⟨⟨?_, ?_⟩, ⟨?_, ?_⟩⟩ <;> simp [fetchGames, fetchGameByID, h1, h2, h3]

/-- Witness for Claim C6 at endpoint `/games` and id `7`. -/
theorem fetch_missing_credential_witness :
    ((fetchGames "" .netFail "/games").result = .error .missingCredential ∧
      (fetchGames "" .netFail "/games").networkCalled = false) ∧
    ((fetchGameByID "" .netFail "7").result = .error .missingCredential ∧
      (fetchGameByID "" .netFail "7").networkCalled = false) :=
  fetch_missing_credential "/games" "7" .netFail .netFail rfl (by decide) rfl

/-- Claim C7 (amended): the outbound collection URL appends exactly
`key=<credential>&page_size=20` — with no store-filter parameter — joined
with `&` when the endpoint already contains `?`, else with `?`. -/
theorem fetchGames_url_shape (apiKey endpoint : String) (u : UpstreamOutcome RAWGResponse)
    (h1 : validateURL endpoint = .ok ()) (h2 : apiKey ≠ "") :
    (fetchGames apiKey u endpoint).requestURL =
      some (if endpoint.data.contains '?'
            then baseAPIURL ++ endpoint ++ "&key=" ++ apiKey ++ "&page_size=20"
            else baseAPIURL ++ endpoint ++ "?key=" ++ apiKey ++ "&page_size=20") := by
  cases u <;> simp [fetchGames, h1, h2]

/-- Witness for the amended Claim C7 at endpoint `/games`. -/
theorem fetchGames_url_shape_witness :
    (fetchGames "KEY" .netFail "/games").requestURL =
      some (if "/games".data.contains '?'
            then baseAPIURL ++ "/games" ++ "&key=" ++ "KEY" ++ "&page_size=20"
            else baseAPIURL ++ "/games" ++ "?key=" ++ "KEY" ++ "&page_size=20") :=
  fetchGames_url_shape "KEY" "/games" .netFail rfl (by decide)

/-- Counterexample to Claim C7 as stated: the URL built for `/games` carries
no store-filter parameter at all. -/
theorem fetchGames_url_no_store_filter_cex :
    (fetchGames "KEY" .netFail "/games").requestURL
      = some "https://api.rawg.io/api/games?key=KEY&page_size=20" ∧
    listHasSub "stores".data "https://api.rawg.io/api/games?key=KEY&page_size=20".data = false :=
  ⟨rfl, by decide⟩

/-- The older revision's URL builder violates the other half of the same
claim: a path with no `?` that is not one of its three named endpoints is
joined with `&` rather than `?`. -/
theorem fetchGamesURL_v0_join_rule :
    fetchGamesURL_v0 "KEY" "/games/upcoming" =
      "https://api.rawg.io/api/games/upcoming&key=KEY&page_size=20&stores=1,2,3,4,5,6,7,8,9,10,11" ∧
    "/games/upcoming".data.contains '?' = false :=
  ⟨rfl, by decide⟩

/-- Claim C1 (amended): for a non-empty valid id and a decodable upstream
object — including one with a zero/absent identifier — `fetchGameByID`
returns a non-`nil` record with no error, so the handler responds 200 with
that record; only a fetch failure yields 500, and the 404 branch requires a
`nil` record with no error, which no decodable body produces. -/
theorem fetchGameByID_decodable_always_some (apiKey id : String) (g : RAWGGame)
    (h1 : id ≠ "") (h2 : validateURL ("/games/" ++ id) = .ok ()) (h3 : apiKey ≠ "") :
    (fetchGameByID apiKey (.ok g) id).result = .ok (some (normalizeGame g)) ∧
    (getGameByID apiKey (.ok g) id).status = 200 ∧
    (getGameByID apiKey (.ok g) id).game = some (normalizeGame g) ∧
    (getGameByID apiKey .netFail id).status = 500 ∧
    (getGameByID apiKey .badJSON id).status = 500 := by
  refine ⟨?_, ?_, ?_, ?_, ?_⟩ <;> simp [getGameByID, fetchGameByID, h1, h2, h3]

/-- Witness for the amended Claim C1 at id `7` and the zero-identifier
object. -/
theorem fetchGameByID_decodable_always_some_witness :
    (getGameByID "KEY" (.ok zeroIDGame) "7").status = 200 :=
  (fetchGameByID_decodable_always_some "KEY" "7" zeroIDGame (by decide) rfl (by decide)).2.1

/-- Counterexample to Claim C1 as stated: a decodable upstream object with
identifier `0` does not yield a `nil` record, and the handler answers 200
with a record whose id renders as `"0"` — not 404. -/
theorem getGameByID_zero_identifier_200 :
    (getGameByID "KEY" (.ok zeroIDGame) "7").status = 200 ∧
    (getGameByID "KEY" (.ok zeroIDGame) "7").errorMsg = none ∧
    ((getGameByID "KEY" (.ok zeroIDGame) "7").game.map Game.id) = some "0" ∧
    (fetchGameByID "KEY" (.ok zeroIDGame) "7").result ≠ .ok none := by
  refine ⟨rfl, rfl, rfl, ?_⟩
  intro h
  rw [show (fetchGameByID "KEY" (.ok zeroIDGame) "7").result
        = .ok (some (normalizeGame zeroIDGame)) from rfl] at h
  simp at h

/-! Section: Claims about the route handlers and middleware -/

/-- Claim C9: `searchGames` with an absent or empty `q` answers
`400 {"error":"Search query is required"}` and performs no upstream call;
with a non-empty `q` it invokes the upstream client on
`/games?search=<q>`. -/
theorem searchGames_policy (apiKey : String) (u : UpstreamOutcome RAWGResponse) (q : String) :
    (q = "" → searchGames apiKey u q =
      { status := 400, errorMsg := some "Search query is required",
        games := none, fetchedEndpoint := none }) ∧
    (q ≠ "" → (searchGames apiKey u q).fetchedEndpoint = some ("/games?search=" ++ q)) := by
  constructor <;> intro h <;> simp [searchGames, h]

/-- Witness for Claim C9 with empty and non-empty queries. -/
theorem searchGames_policy_witness :
    searchGames "KEY" .netFail "" =
      { status := 400, errorMsg := some "Search query is required",
        games := none, fetchedEndpoint := none } :=
  (searchGames_policy "KEY" .netFail "").1 rfl

/-- Claim C8: the input validator rejects with 400 a raw query longer than
1024 bytes, rejects with 415 a POST whose Content-Type is not
`application/json`, rejects with 400 a query parameter name containing one of
`< > \x7b \x7d [ ] \`, and passes every other request on — checks applied in
that order. -/
theorem validateInput_policy (req : HttpRequest) :
    (1024 < goStrLen req.rawQuery →
      validateInput req = some (400, "Query string too long")) ∧
    (goStrLen req.rawQuery ≤ 1024 → req.method = "POST" →
      req.contentType ≠ "application/json" →
      validateInput req = some (415, "Unsupported Media Type")) ∧
    (goStrLen req.rawQuery ≤ 1024 →
      (req.method = "POST" → req.contentType = "application/json") →
      (∃ p ∈ req.queryParamNames, ∃ c ∈ p.data, c ∈ forbiddenParamChars) →
      validateInput req = some (400, "Invalid characters in parameters")) ∧
    (goStrLen req.rawQuery ≤ 1024 →
      (req.method = "POST" → req.contentType = "application/json") →
      (∀ p ∈ req.queryParamNames, ∀ c ∈ p.data, c ∉ forbiddenParamChars) →
      validateInput req = none) := by
  refine ⟨?_, ?_, ?_, ?_⟩
  · intro h
    simp [validateInput, h]
  · intro h hm hct
    rw [validateInput, if_neg (by omega), if_pos ⟨hm, hct⟩]
  · intro h hmct hbad
    obtain ⟨p, hp, c, hc, hcf⟩ := hbad
    rw [validateInput, if_neg (by omega),
      if_neg (fun hand => hand.2 (hmct hand.1)), if_pos ?_]
    rw [List.any_eq_true]
    refine ⟨p, hp, ?_⟩
    rw [containsForbidden, List.any_eq_true]
    refine ⟨c, hc, ?_⟩
    simpa using hcf
  · intro h hmct hgood
    rw [validateInput, if_neg (by omega),
      if_neg (fun hand => hand.2 (hmct hand.1)), if_neg ?_]
    rw [List.any_eq_true]
    rintro ⟨p, hp, hpbad⟩
    rw [containsForbidden, List.any_eq_true] at hpbad
    obtain ⟨c, hc, hcf⟩ := hpbad
    exact hgood p hp c hc (by simpa using hcf)

/-- Witness for Claim C8: a plain GET with a short clean query passes, and a
`text/plain` POST is rejected with 415. -/
theorem validateInput_policy_witness :
    validateInput { method := "GET", contentType := "", rawQuery := "q=zelda",
                    queryParamNames := ["q"] } = none ∧
    validateInput { method := "POST", contentType := "text/plain", rawQuery := "",
                    queryParamNames := [] } = some (415, "Unsupported Media Type") :=
  ⟨(validateInput_policy _).2.2.2 (by decide) (by decide) (by decide),
   (validateInput_policy _).2.1 (by decide) rfl (by decide)⟩

/-! Section: Rate-limiter lemmas -/

theorem lookupIP_cons (a : String × Int) (tl : LimiterMap) (ip : String) :
    lookupIP (a :: tl) ip = if a.1 = ip then some a.2 else lookupIP tl ip := by
  by_cases h : a.1 = ip
  · rw [lookupIP, List.find?_cons_of_pos _ (by simp [h]), if_pos h]
    rfl
  · rw [lookupIP, List.find?_cons_of_neg _ (by simp [h]), if_neg h]
    rfl

theorem purgeOld_cons (now : Int) (a : String × Int) (tl : LimiterMap) :
    purgeOld now (a :: tl) =
      if now - a.2 ≤ 60 then a :: purgeOld now tl else purgeOld now tl := by
  by_cases h : now - a.2 ≤ 60
  · rw [purgeOld, List.filter_cons_of_pos (by simpa using h), if_pos h]
    rfl
  · rw [purgeOld, List.filter_cons_of_neg (by simpa using h), if_neg h]
    rfl

/-- A recorded timestamp at most 60 seconds old survives the purge sweep. -/
theorem lookupIP_purgeOld_fresh (m : LimiterMap) (ip : String) (t now : Int)
    (h : lookupIP m ip = some t) (hf : now - t ≤ 60) :
    lookupIP (purgeOld now m) ip = some t := by
  induction m with
  | nil => simp [lookupIP] at h
  | cons a tl ih =>
    rw [lookupIP_cons] at h
    rw [purgeOld_cons]
    by_cases hk : a.1 = ip
    · rw [if_pos hk] at h
      have ht : a.2 = t := Option.some.inj h
      rw [if_pos (by omega : now - a.2 ≤ 60), lookupIP_cons, if_pos hk, ht]
    · rw [if_neg hk] at h
      by_cases hkeep : now - a.2 ≤ 60
      · rw [if_pos hkeep, lookupIP_cons, if_neg hk]
        exact ih h
      · rw [if_neg hkeep]
        exact ih h

/-- A client not in the map is still absent after the purge sweep. -/
theorem lookupIP_purgeOld_none (m : LimiterMap) (ip : String) (now : Int)
    (h : lookupIP m ip = none) :
    lookupIP (purgeOld now m) ip = none := by
  rw [lookupIP, Option.map_eq_none'] at h ⊢
  rw [List.find?_eq_none] at h ⊢
  intro x hx
  exact h x (List.mem_of_mem_filter hx)

/-- With unique keys, a recorded timestamp more than 60 seconds old is gone
after the purge sweep. -/
theorem lookupIP_purgeOld_stale (m : LimiterMap) (ip : String) (t now : Int)
    (hWF : WFMap m) (h : lookupIP m ip = some t) (hs : 60 < now - t) :
    lookupIP (purgeOld now m) ip = none := by
  induction m with
  | nil => simp [lookupIP] at h
  | cons a tl ih =>
    have hWFc : (a.1 :: tl.map Prod.fst).Nodup := hWF
    have hWF' : WFMap tl := (List.nodup_cons.mp hWFc).2
    rw [lookupIP_cons] at h
    rw [purgeOld_cons]
    by_cases hk : a.1 = ip
    · rw [if_pos hk] at h
      have ht : a.2 = t := Option.some.inj h
      rw [if_neg (by omega : ¬ now - a.2 ≤ 60)]
      have hnone : lookupIP tl ip = none := by
        rw [lookupIP, Option.map_eq_none', List.find?_eq_none]
        intro x hx
        have hnotin : a.1 ∉ tl.map Prod.fst := (List.nodup_cons.mp hWFc).1
        simp only [beq_iff_eq]
        intro hx1
        exact hnotin (by rw [hk, ← hx1]; exact List.mem_map_of_mem Prod.fst hx)
      exact lookupIP_purgeOld_none tl ip now hnone
    · rw [if_neg hk] at h
      by_cases hkeep : now - a.2 ≤ 60
      · rw [if_pos hkeep, lookupIP_cons, if_neg hk]
        exact ih hWF' h
      · rw [if_neg hkeep]
        exact ih hWF' h

/-- The purge sweep preserves key uniqueness. -/
theorem WFMap_purgeOld (now : Int) (m : LimiterMap) (h : WFMap m) :
    WFMap (purgeOld now m) := by
  have hsub : ((purgeOld now m).map Prod.fst).Sublist (m.map Prod.fst) :=
    (List.filter_sublist m).map Prod.fst
  exact List.Nodup.sublist hsub h

/-- After `limiter[ip] = t`, the client's recorded timestamp is `t`. -/
theorem lookupIP_setIP (m : LimiterMap) (ip : String) (t : Int) :
    lookupIP (setIP m ip t) ip = some t := by
  rw [lookupIP, setIP, List.find?_append]
  have h1 : (m.filter (fun e => !(e.1 == ip))).find? (fun e => e.1 == ip) = none := by
    rw [List.find?_eq_none]
    intro x hx
    have hk := (List.mem_filter.mp hx).2
    simp only [Bool.not_eq_eq_eq_not, Bool.not_true, beq_eq_false_iff_ne] at hk
    simp [hk]
  rw [h1]
  simp

/-- A request less than one second after the client's recorded timestamp is
aborted with 429, and the post-state is the purged map, unchanged
otherwise. -/
theorem rl_reject (m : LimiterMap) (ip : String) (t now : Int)
    (h : lookupIP m ip = some t) (hlt : now - t < 1) :
    rateLimiterStep m ip now =
      { response := some (429, "Too many requests"), newMap := purgeOld now m } := by
  have hf : lookupIP (purgeOld now m) ip = some t :=
    lookupIP_purgeOld_fresh m ip t now h (by omega)
  rw [lookupIP, Option.map_eq_some'] at hf
  obtain ⟨e, he, het⟩ := hf
  subst het
  simp only [rateLimiterStep, he]
  rw [if_pos hlt]

/-- A request at least one second after the client's recorded timestamp is
admitted. -/
theorem rl_admit (m : LimiterMap) (ip : String) (t now : Int)
    (hWF : WFMap m) (h : lookupIP m ip = some t) (hge : 1 ≤ now - t) :
    (rateLimiterStep m ip now).response = none := by
  by_cases hfresh : now - t ≤ 60
  · have hf : lookupIP (purgeOld now m) ip = some t :=
      lookupIP_purgeOld_fresh m ip t now h hfresh
    rw [lookupIP, Option.map_eq_some'] at hf
    obtain ⟨e, he, het⟩ := hf
    subst het
    simp only [rateLimiterStep, he]
    rw [if_neg (by omega)]
  · have hf : lookupIP (purgeOld now m) ip = none :=
      lookupIP_purgeOld_stale m ip t now hWF h (by omega)
    rw [lookupIP, Option.map_eq_none'] at hf
    simp only [rateLimiterStep, hf]

/-! Section: Claims about the rate limiter -/

/-- Claim C4: a request arriving less than 1 second after the client's last
recorded request is rejected with the 429 terminal response; arriving 1
second or more later it is admitted; and an entry idle for more than 60
seconds is purged on the next check, the client's next request being treated
as first-ever (admitted and re-recorded). -/
theorem rateLimiter_policy (m : LimiterMap) (ip : String) (t now : Int) (hWF : WFMap m) :
    (lookupIP m ip = some t → now - t < 1 →
      (rateLimiterStep m ip now).response = some (429, "Too many requests")) ∧
    (lookupIP m ip = some t → 1 ≤ now - t →
      (rateLimiterStep m ip now).response = none) ∧
    (lookupIP m ip = some t → 60 < now - t →
      lookupIP (purgeOld now m) ip = none ∧
      (rateLimiterStep m ip now).response = none ∧
      lookupIP (rateLimiterStep m ip now).newMap ip = some now) := by
  refine ⟨?_, ?_, ?_⟩
  · intro h hlt
    rw [rl_reject m ip t now h hlt]
  · intro h hge
    exact rl_admit m ip t now hWF h hge
  · intro h hs
    have hf : lookupIP (purgeOld now m) ip = none :=
      lookupIP_purgeOld_stale m ip t now hWF h (by omega)
    refine ⟨hf, ?_, ?_⟩
    · exact rl_admit m ip t now hWF h (by omega)
    · rw [lookupIP, Option.map_eq_none'] at hf
      simp only [rateLimiterStep, hf]
      exact lookupIP_setIP (purgeOld now m) ip now

/-- Witness for Claim C4: a same-second repeat from `1.2.3.4` is rejected. -/
theorem rateLimiter_policy_witness :
    (rateLimiterStep [("1.2.3.4", 100)] "1.2.3.4" 100).response
      = some (429, "Too many requests") :=
  (rateLimiter_policy [("1.2.3.4", 100)] "1.2.3.4" 100 100 (by decide)).1
    (by decide) (by decide)

/-- Claim C10: a 429 rejection leaves the rejected client's stored timestamp
unchanged — rejection does not refresh the 1-second window — so the client is
re-admitted once 1 second has elapsed since its last admitted request,
regardless of intervening rejected attempts. -/
theorem rateLimiter_reject_frame (m : LimiterMap) (ip : String) (t now : Int)
    (hWF : WFMap m) (h : lookupIP m ip = some t) (hlt : now - t < 1) :
    (rateLimiterStep m ip now).response = some (429, "Too many requests") ∧
    lookupIP (rateLimiterStep m ip now).newMap ip = some t ∧
    (∀ now2 : Int, 1 ≤ now2 - t →
      (rateLimiterStep (rateLimiterStep m ip now).newMap ip now2).response = none) := by
  have hstep := rl_reject m ip t now h hlt
  have hkeep : lookupIP (purgeOld now m) ip = some t :=
    lookupIP_purgeOld_fresh m ip t now h (by omega)
  refine ⟨by rw [hstep], by rw [hstep]; exact hkeep, ?_⟩
  intro now2 h2
  rw [hstep]
  exact rl_admit (purgeOld now m) ip t now2 (WFMap_purgeOld now m hWF) hkeep h2

/-- Witness for Claim C10: after a same-second rejection, the stored
timestamp is untouched. -/
theorem rateLimiter_reject_frame_witness :
    lookupIP (rateLimiterStep [("1.2.3.4", 100)] "1.2.3.4" 100).newMap "1.2.3.4"
      = some 100 :=
  (rateLimiter_reject_frame [("1.2.3.4", 100)] "1.2.3.4" 100 100 (by decide)
    (by decide) (by decide)).2.1

end GameHub
